import Mathlib

/-!
Shallow embedding of the tabular filter & annotation pipeline of
`src/py_github_debutants_01.py` (a Streamlit dashboard over player-debut
records).  Pandas rows become `Record`s; `NaN`/`NaT` cells become `none`;
each pandas boolean-mask filter becomes a `List.filter`; the in-place
column write `data['% Change'] = …` is modelled by returning the canonical
table as the run leaves it next to the presentation table.
-/

namespace Debutants

/-- A calendar date as held in the `Debut Date` column after
`pd.to_datetime` (line 101). -/
structure DDate where
  year : Nat
  month : Nat
  day : Nat
deriving DecidableEq

/-- One row of the canonical table produced by `download_and_load_data`
(lines 59-121): every cell is optional because any pandas cell can be
`NaN`/`NaT`.  `pctChange` models the `% Change` column, which is absent
(`none` everywhere) as loaded and is written by the derivation step at
line 199. -/
structure Record where
  competition : Option String
  country : Option String
  playerName : Option String
  position : Option String
  nationality : Option String
  debutClub : Option String
  opponent : Option String
  debutDate : Option DDate
  debutYear : Option Nat
  debutMonth : Option String
  ageAtDebut : Option Int
  goalsFor : Option Int
  goalsAgainst : Option Int
  appearances : Option Int
  goals : Option Int
  minutesPlayed : Option Int
  valueAtDebut : Option ℚ
  currentMarketValue : Option ℚ
  compCountryID : Option String
  competitionCountry : Option String
  pctChange : Option ℚ
deriving DecidableEq

/-- The resolved widget state consumed by section 8B of the source: the
three multiselects (`selected_comp`, `selected_months`, `selected_years`)
and the two sliders (`max_age_filter`, `min_minutes`). -/
structure Criteria where
  selectedComp : List String
  selectedMonths : List String
  selectedYears : List String
  maxAgeFilter : Int
  minMinutes : Int

/-- Lines 165-174: percentage = ((Current - Debut) / Debut) * 100, `None`
when either value is `NaN` or the debut value is zero. -/
def calc_percent_change (debutVal currVal : Option ℚ) : Option ℚ :=
  match debutVal, currVal with
  | some d, some c => if d = 0 then none else some ((c - d) / d * 100)
  | _, _ => none

/-- The three per-row outcomes of `highlight_mv`: light green, light red,
or no style string. -/
inductive Highlight where
  | increased
  | decreased
  | neutral
deriving DecidableEq

/-- Lines 147-160: green iff current > debut, red iff current < debut, no
style otherwise (a pandas comparison against `NaN` is false, so a row with
either value missing matches neither mask). -/
def highlight_mv (debutVal currVal : Option ℚ) : Highlight :=
  match debutVal, currVal with
  | some d, some c =>
    if d < c then .increased else if c < d then .decreased else .neutral
  | _, _ => .neutral

/-- Lines 280-283: the selected display labels turned back into IDs,
`"X (Y)"` to `"X||Y"` via the two `str.replace` calls. -/
def selectedIdsOf (selectedComp : List String) : List String :=
  selectedComp.map fun c => (c.replace " (" "||").replace ")" ""

/-- The guard of lines 279/287/291: a categorical filter runs only when
its selection is non-empty and does not contain the `"All"` marker. -/
def activeSel (sel : List String) : Prop := sel ≠ [] ∧ "All" ∉ sel

instance (sel : List String) : Decidable (activeSel sel) := by
  unfold activeSel
  infer_instance

/-- Membership test of line 284 (`isin` on `CompCountryID`; a `NaN` cell
is never `isin` any list). -/
def compMatch (sel : List String) (r : Record) : Bool :=
  match r.compCountryID with
  | some i => decide (i ∈ selectedIdsOf sel)
  | none => false

/-- Lines 279-284: the Competition (Country) filter stage. -/
def compStage (sel : List String) (t : List Record) : List Record :=
  if activeSel sel then t.filter (compMatch sel) else t

/-- The Competition (Country) stage as a single per-record predicate. -/
def compPred (sel : List String) (r : Record) : Bool :=
  if activeSel sel then compMatch sel r else true

/-- Membership test of line 288 (`isin` on `Debut Month`). -/
def monthMatch (sel : List String) (r : Record) : Bool :=
  match r.debutMonth with
  | some m => decide (m ∈ sel)
  | none => false

/-- Lines 287-288: the Debut Month filter stage. -/
def monthStage (sel : List String) (t : List Record) : List Record :=
  if activeSel sel then t.filter (monthMatch sel) else t

/-- The Debut Month stage as a single per-record predicate. -/
def monthPred (sel : List String) (r : Record) : Bool :=
  if activeSel sel then monthMatch sel r else true

/-- Line 292: `[int(y) for y in selected_years if y.isdigit()]`. -/
def validYearsOf (sel : List String) : List Nat :=
  sel.filterMap String.toNat?

/-- Membership test of line 293 (`isin` on `Debut Year`). -/
def yearMatch (sel : List String) (r : Record) : Bool :=
  match r.debutYear with
  | some y => decide (y ∈ validYearsOf sel)
  | none => false

/-- Lines 291-293: the Debut Year filter stage. -/
def yearStage (sel : List String) (t : List Record) : List Record :=
  if activeSel sel then t.filter (yearMatch sel) else t

/-- The Debut Year stage as a single per-record predicate. -/
def yearPred (sel : List String) (r : Record) : Bool :=
  if activeSel sel then yearMatch sel r else true

/-- Line 297: `Age at Debut <= max_age_filter`; a `NaN` age compares
false and fails. -/
def agePred (maxAge : Int) (r : Record) : Bool :=
  match r.ageAtDebut with
  | some a => decide (a ≤ maxAge)
  | none => false

/-- Lines 296-297: the Maximum Age at Debut filter stage. -/
def ageStage (maxAge : Int) (t : List Record) : List Record :=
  t.filter (agePred maxAge)

/-- Line 301: `Minutes Played >= min_minutes`; a `NaN` cell fails. -/
def minutesPred (minMin : Int) (r : Record) : Bool :=
  match r.minutesPlayed with
  | some m => decide (minMin ≤ m)
  | none => false

/-- Lines 300-301: the Minimum Minutes Played filter stage. -/
def minutesStage (minMin : Int) (t : List Record) : List Record :=
  t.filter (minutesPred minMin)

/-- Section 8B in the implementation's order: competition, month, year,
age, minutes. -/
def applyFilters (c : Criteria) (t : List Record) : List Record :=
  minutesStage c.minMinutes
    (ageStage c.maxAgeFilter
      (yearStage c.selectedYears
        (monthStage c.selectedMonths
          (compStage c.selectedComp t))))

/-- The five per-dimension predicates in the implementation's order. -/
def predList (c : Criteria) : List (Record → Bool) :=
  [compPred c.selectedComp, monthPred c.selectedMonths, yearPred c.selectedYears,
   agePred c.maxAgeFilter, minutesPred c.minMinutes]

/-- Applies a list of per-record predicates as successive filter stages. -/
def foldFilters (ps : List (Record → Bool)) (t : List Record) : List Record :=
  ps.foldl (fun acc p => acc.filter p) t

/-- Descending comparison on debut dates; a missing date sorts last, as
pandas `sort_values(ascending=False)` does with its default
`na_position='last'`. -/
def keyGe (a b : Record) : Bool :=
  match a.debutDate, b.debutDate with
  | some x, some y =>
    decide (y.year < x.year ∨ (y.year = x.year ∧
      (y.month < x.month ∨ (y.month = x.month ∧ y.day ≤ x.day))))
  | some _, none => true
  | none, some _ => false
  | none, none => true

/-- The sort key relation as a `Prop`, for `List.insertionSort`. -/
def keyGeP (a b : Record) : Prop := keyGe a b = true

instance : DecidableRel keyGeP := fun a b => by
  unfold keyGeP
  infer_instance

instance : IsTotal Record keyGeP where
  total a b := by
    unfold keyGeP keyGe
    rcases a.debutDate with _ | x <;> rcases b.debutDate with _ | y <;> simp
    omega

instance : IsTrans Record keyGeP where
  trans a b c := by
    unfold keyGeP keyGe
    rcases a.debutDate with _ | x <;> rcases b.debutDate with _ | y <;>
      rcases c.debutDate with _ | z <;> simp
    all_goals omega

/-- Line 307: `sort_values('Debut Date', ascending=False)`. -/
def sortByDateDesc (t : List Record) : List Record :=
  List.insertionSort keyGeP t

/-- Line 199: `data['% Change'] = data.apply(calc_percent_change, axis=1)`,
the derived column written onto the canonical table. -/
def withPct (r : Record) : Record :=
  { r with pctChange := calc_percent_change r.valueAtDebut r.currentMarketValue }

/-- Lines 202-203: rows whose age fails `>= 0` are dropped; a `NaN` age
also compares false and is dropped. -/
def ageCleanup (t : List Record) : List Record :=
  t.filter fun r =>
    match r.ageAtDebut with
    | some a => decide (0 ≤ a)
    | none => false

/-- The table held in `filtered_data` after section 8B: derived column,
age cleanup, then the five filter stages. -/
def pipelineFiltered (canonical : List Record) (c : Criteria) : List Record :=
  applyFilters c (ageCleanup (canonical.map withPct))

/-- Lines 306-308: the sort is applied only to a non-empty filtered
table. -/
def pipelineSorted (canonical : List Record) (c : Criteria) : List Record :=
  let f := pipelineFiltered canonical c
  if f.isEmpty then f else sortByDateDesc f

/-- Zero-padding of `strftime` day and month fields. -/
def pad2 (n : Nat) : String :=
  if n < 10 then "0" ++ toString n else toString n

/-- Line 308: `dt.strftime('%d.%m.%Y')`. -/
def fmtDate (d : DDate) : String :=
  pad2 d.day ++ "." ++ pad2 d.month ++ "." ++ toString d.year

/-- One row of `final_df` (lines 314-334): the sixteen display columns,
the debut date now a formatted string, money and percent still numeric. -/
structure FinalRow where
  competition : Option String
  playerName : Option String
  position : Option String
  nationality : Option String
  debutClub : Option String
  opponent : Option String
  debutDate : Option String
  ageAtDebut : Option Int
  goalsFor : Option Int
  goalsAgainst : Option Int
  appearances : Option Int
  goals : Option Int
  minutesPlayed : Option Int
  valueAtDebut : Option ℚ
  currentMarketValue : Option ℚ
  pctChange : Option ℚ
deriving DecidableEq

/-- Column selection of lines 314-334 plus the date formatting of
line 308, per record. -/
def toFinalRow (r : Record) : FinalRow :=
  { competition := r.competition, playerName := r.playerName, position := r.position,
    nationality := r.nationality, debutClub := r.debutClub, opponent := r.opponent,
    debutDate := r.debutDate.map fmtDate, ageAtDebut := r.ageAtDebut,
    goalsFor := r.goalsFor, goalsAgainst := r.goalsAgainst, appearances := r.appearances,
    goals := r.goals, minutesPlayed := r.minutesPlayed, valueAtDebut := r.valueAtDebut,
    currentMarketValue := r.currentMarketValue, pctChange := r.pctChange }

/-- The presentation table (`final_df`). -/
def finalTable (canonical : List Record) (c : Criteria) : List FinalRow :=
  (pipelineSorted canonical c).map toFinalRow

/-- One full run of section 8 on a canonical table and one widget state:
the first component is the canonical table as the run leaves it (the
`% Change` write of line 199 happens in place on `data`), the second is
the presentation table. -/
def runPipeline (canonical : List Record) (c : Criteria) : List Record × List FinalRow :=
  (canonical.map withPct, finalTable canonical c)

/-- A record with the derived `% Change` column blanked, for comparing
tables up to that one column. -/
def erasePct (r : Record) : Record := { r with pctChange := none }

/-- Digits of `n` (least significant first) regrouped with a thousands
separator after every third digit, mirroring the `,` flag of the
f-string in `money_format`. -/
def commaChunks : List Char → List Char
  | d1 :: d2 :: d3 :: d4 :: rest => d1 :: d2 :: d3 :: ',' :: commaChunks (d4 :: rest)
  | l => l

/-- Decimal digit string of `n` with thousands separators. -/
def groupNat (n : Nat) : String :=
  String.mk ((commaChunks (Nat.toDigits 10 n).reverse).reverse)

/-- Lines 351-354: `"€0"` for `NaN`, otherwise `f"€{x:,.0f}"`.  The
monetary cells are whole euros, so the argument is an integer; a negative
value renders with its minus sign between the euro sign and the grouped
digits, exactly as the f-string does. -/
def money_format (x : Option Int) : String :=
  match x with
  | none => "€0"
  | some v => "€" ++ (if v < 0 then "-" else "") ++ groupNat v.natAbs

/-- Lines 360-363: `""` for `NaN`, otherwise `f"{x:+.1f}%"`.  The argument
is the percent value in tenths, so the one-decimal rendering is exact; the
`+` flag of the f-string prints an explicit sign, `+` for zero. -/
def pct_format (x : Option Int) : String :=
  match x with
  | none => ""
  | some t =>
    (if t < 0 then "-" else "+") ++ toString (t.natAbs / 10) ++ "." ++
      toString (t.natAbs % 10) ++ "%"

/-- Lines 314-331: the header row of `final_df`. -/
def displayColumnNames : List String :=
  ["Competition", "Player Name", "Position", "Nationality", "Debut Club", "Opponent",
   "Debut Date", "Age at Debut", "Goals For", "Goals Against", "Appearances", "Goals",
   "Minutes Played", "Value at Debut", "Current Market Value", "% Change"]

/-- Lines 371-381: the Excel download exists only when `final_df` is
non-empty (`if not final_df.empty:`); when it does exist, the file carries
the header row and the rows of `final_df`. -/
def downloadPayload (final : List FinalRow) : Option (List String × List FinalRow) :=
  if final.isEmpty then none else some (displayColumnNames, final)

/-- Keeps every character other than the thousands separator. -/
def notComma (ch : Char) : Bool := ch ≠ ','

/-- A blank record: every cell `NaN`. -/
def emptyRecord : Record :=
  { competition := none, country := none, playerName := none, position := none,
    nationality := none, debutClub := none, opponent := none, debutDate := none,
    debutYear := none, debutMonth := none, ageAtDebut := none, goalsFor := none,
    goalsAgainst := none, appearances := none, goals := none, minutesPlayed := none,
    valueAtDebut := none, currentMarketValue := none, compCountryID := none,
    competitionCountry := none, pctChange := none }

/-- The widget state with every restriction at its loosest. -/
def sentinelCriteria : Criteria :=
  { selectedComp := [], selectedMonths := [], selectedYears := [],
    maxAgeFilter := 100, minMinutes := 0 }

/-- A record whose age at debut is 17. -/
def recAge17 : Record := { emptyRecord with ageAtDebut := some 17 }

/-- A record carrying money values that yield a 50 percent rise. -/
def recMoney : Record :=
  { emptyRecord with valueAtDebut := some 100, currentMarketValue := some 150 }

/-- A presentation row with every cell blank. -/
def finalRowBlank : FinalRow :=
  { competition := none, playerName := none, position := none, nationality := none,
    debutClub := none, opponent := none, debutDate := none, ageAtDebut := none,
    goalsFor := none, goalsAgainst := none, appearances := none, goals := none,
    minutesPlayed := none, valueAtDebut := none, currentMarketValue := none,
    pctChange := none }

/-- A record filling the fields every filter stage looks at. -/
def recA : Record :=
  { emptyRecord with
    debutDate := some ⟨2023, 5, 1⟩
    ageAtDebut := some 20
    minutesPlayed := some 900 }

/-- A later debutant than `recA`. -/
def recB : Record :=
  { emptyRecord with
    debutDate := some ⟨2024, 2, 10⟩
    ageAtDebut := some 19
    minutesPlayed := some 300 }

/-- A widget state with the two numeric restrictions engaged. -/
def runCriteria : Criteria :=
  { selectedComp := [], selectedMonths := [], selectedYears := [],
    maxAgeFilter := 23, minMinutes := 100 }

/-- C1 theorem. -/
theorem categorical_sentinel_passes_all (t : List Record) (sel : List String)
    (h : sel = [] ∨ "All" ∈ sel) :
    compStage sel t = t ∧ monthStage sel t = t ∧ yearStage sel t = t := by
  have hna : ¬ activeSel sel := by
    rcases h with h | h
    · exact fun ha => ha.1 h
    · exact fun ha => ha.2 h
  refine ⟨?_, ?_, ?_⟩ <;> simp [compStage, monthStage, yearStage, hna]

/-- C1 witness. -/
theorem categorical_sentinel_passes_all_witness :
    (([] : List String) = [] ∨ "All" ∈ ([] : List String)) ∧
    (compStage [] [emptyRecord] = [emptyRecord] ∧
     monthStage [] [emptyRecord] = [emptyRecord] ∧
     yearStage [] [emptyRecord] = [emptyRecord]) :=
  ⟨Or.inl rfl, categorical_sentinel_passes_all [emptyRecord] [] (Or.inl rfl)⟩

/-- C2 counterexample. -/
theorem calc_percent_change_claim_false :
    ¬ (calc_percent_change (some 100) none = none ↔
        (some (100 : ℚ) = none ∨ some (100 : ℚ) = some 0)) := by
  simp [calc_percent_change]

/-- C2 amended theorem. -/
theorem calc_percent_change_spec :
    (∀ b c : Option ℚ,
      calc_percent_change b c = none ↔ (b = none ∨ c = none ∨ b = some 0)) ∧
    (∀ bv cv : ℚ, bv ≠ 0 →
      calc_percent_change (some bv) (some cv) = some ((cv - bv) / bv * 100)) := by
  constructor
  · intro b c
    rcases b with _ | bv <;> rcases c with _ | cv <;> simp [calc_percent_change]
  · intro bv cv h
    simp [calc_percent_change, h]

/-- C2 witness. -/
theorem calc_percent_change_spec_witness :
    ((4 : ℚ) ≠ 0) ∧
    calc_percent_change (some 4) (some 5) = some ((5 - 4) / 4 * 100) :=
  ⟨by norm_num, calc_percent_change_spec.2 4 5 (by norm_num)⟩

/-- C3 theorem. -/
theorem highlight_mv_spec (b c : Option ℚ) :
    (highlight_mv b c = .increased ↔ ∃ bv cv, b = some bv ∧ c = some cv ∧ bv < cv) ∧
    (highlight_mv b c = .decreased ↔ ∃ bv cv, b = some bv ∧ c = some cv ∧ cv < bv) ∧
    (highlight_mv b c = .neutral ↔
      (b = none ∨ c = none ∨ ∃ v, b = some v ∧ c = some v)) := by
  rcases b with _ | bv <;> rcases c with _ | cv <;> simp [highlight_mv]
  rcases lt_trichotomy bv cv with h | h | h
  · simp [h, lt_asymm h, h.ne']
  · simp [h, lt_irrefl]
  · simp [h, lt_asymm h, h.ne]

/-- C4 counterexample. -/
theorem age_filter_claim_false :
    ageStage 23 [recAge17] = [recAge17] ∧ ¬ (18 ≤ (17 : Int)) := by
  constructor <;> decide

/-- C4 amended theorem. -/
theorem age_filter_upper_bound (maxAge : Int) (t : List Record) (r : Record) :
    r ∈ ageStage maxAge t ↔ r ∈ t ∧ ∃ a, r.ageAtDebut = some a ∧ a ≤ maxAge := by
  have hpred : agePred maxAge r = true ↔ ∃ a, r.ageAtDebut = some a ∧ a ≤ maxAge := by
    unfold agePred
    rcases h : r.ageAtDebut with _ | a <;> simp [h]
  simp [ageStage, List.mem_filter, hpred]

/-- C5 counterexample. -/
theorem pipeline_mutates_canonical :
    (runPipeline [recMoney] sentinelCriteria).1 ≠ [recMoney] := by
  decide

/-- C5 amended theorem. -/
theorem pipeline_touches_only_pct (t : List Record) (c : Criteria) :
    (runPipeline t c).1 = t.map withPct ∧
    ((runPipeline t c).1).map erasePct = t.map erasePct := by
  refine ⟨rfl, ?_⟩
  have hpt : ∀ r, erasePct (withPct r) = erasePct r := fun r => rfl
  simp [runPipeline, List.map_map, Function.comp_def, hpt]

/-- C6 counterexample. -/
theorem export_empty_claim_false : downloadPayload [] = none := rfl

/-- C6 amended theorem. -/
theorem export_nonempty_only (final : List FinalRow) :
    (downloadPayload final = none ↔ final = []) ∧
    (final ≠ [] → downloadPayload final = some (displayColumnNames, final)) := by
  constructor
  · rcases final with _ | ⟨r, rest⟩ <;> simp [downloadPayload]
  · intro h
    rcases final with _ | ⟨r, rest⟩
    · exact absurd rfl h
    · simp [downloadPayload]

/-- C6 witness. -/
theorem export_nonempty_only_witness :
    ([finalRowBlank] ≠ ([] : List FinalRow)) ∧
    downloadPayload [finalRowBlank] = some (displayColumnNames, [finalRowBlank]) :=
  ⟨by simp, (export_nonempty_only [finalRowBlank]).2 (by simp)⟩

/-- C7 counterexample. -/
theorem pct_format_zero_signed :
    pct_format (some 0) = "+0.0%" ∧ pct_format (some 0) ≠ "0.0%" := by
  constructor <;> decide

/-- C7 amended theorem. -/
theorem pct_format_spec :
    pct_format none = "" ∧
    pct_format (some 0) = "+0.0%" ∧
    (∀ t : Int, pct_format (some t) ≠ "") ∧
    (∀ t : Int, 0 ≤ t → pct_format (some t) =
      "+" ++ toString (t.natAbs / 10) ++ "." ++ toString (t.natAbs % 10) ++ "%") ∧
    (∀ t : Int, t < 0 → pct_format (some t) =
      "-" ++ toString (t.natAbs / 10) ++ "." ++ toString (t.natAbs % 10) ++ "%") := by
  refine ⟨rfl, by decide, ?_, ?_, ?_⟩
  · intro t h
    have hl := congrArg String.length h
    have h0 : ("" : String).length = 0 := rfl
    have h1 : ("-" : String).length = 1 := rfl
    have h2 : ("+" : String).length = 1 := rfl
    by_cases ht : t < 0 <;>
      simp [pct_format, ht, String.length_append, h0, h1, h2] at hl
  · intro t ht
    have : ¬ t < 0 := not_lt.mpr ht
    simp [pct_format, this]
  · intro t ht
    simp [pct_format, ht]

/-- C7 witness. -/
theorem pct_format_spec_witness :
    (0 ≤ (123 : Int)) ∧ ((-5 : Int) < 0) ∧
    pct_format (some 123) = "+" ++ toString ((123 : Int).natAbs / 10) ++ "." ++
      toString ((123 : Int).natAbs % 10) ++ "%" ∧
    pct_format (some (-5)) = "-" ++ toString (((-5) : Int).natAbs / 10) ++ "." ++
      toString (((-5) : Int).natAbs % 10) ++ "%" :=
  ⟨by decide, by decide, pct_format_spec.2.2.2.1 123 (by decide),
   pct_format_spec.2.2.2.2 (-5) (by decide)⟩

/-- C8 counterexample. -/
theorem money_format_negative_not_zero :
    money_format (some (-1000000)) = "€-1,000,000" ∧
    money_format (some (-1000000)) ≠ "€0" := by
  constructor <;> decide

/-- Digit characters produced by `Nat.digitChar` are never the thousands
separator. -/
theorem digitChar_ne_comma (n : Nat) : Nat.digitChar n ≠ ',' := by
  rcases Nat.lt_or_ge n 16 with h | h
  · interval_cases n <;> decide
  · have h0 : Nat.digitChar n = '*' := by
      unfold Nat.digitChar
      have hne : ∀ k : Nat, k < 16 → n ≠ k := by omega
      simp [hne 0 (by omega), hne 1 (by omega), hne 2 (by omega), hne 3 (by omega),
        hne 4 (by omega), hne 5 (by omega), hne 6 (by omega), hne 7 (by omega),
        hne 8 (by omega), hne 9 (by omega), hne 10 (by omega), hne 11 (by omega),
        hne 12 (by omega), hne 13 (by omega), hne 14 (by omega), hne 15 (by omega)]
    rw [h0]
    decide

/-- Digit lists produced by `Nat.toDigitsCore` stay free of the thousands
separator. -/
theorem toDigitsCore_comma_free (b : Nat) :
    ∀ (fuel n : Nat) (ds : List Char), (∀ c ∈ ds, c ≠ ',') →
      ∀ c ∈ Nat.toDigitsCore b fuel n ds, c ≠ ',' := by
  intro fuel
  induction fuel with
  | zero => intro n ds hds; simpa [Nat.toDigitsCore] using hds
  | succ fuel ih =>
    intro n ds hds c hc
    rw [Nat.toDigitsCore] at hc
    by_cases hnb : n / b = 0
    · simp [hnb] at hc
      rcases hc with hc | hc
      · exact hc ▸ digitChar_ne_comma _
      · exact hds c hc
    · simp [hnb] at hc
      refine ih (n / b) (Nat.digitChar (n % b) :: ds) ?_ c hc
      intro d hd
      rcases List.mem_cons.mp hd with hd | hd
      · exact hd ▸ digitChar_ne_comma _
      · exact hds d hd

/-- The comma-inserting pass only ever adds commas: filtering them out
returns the non-comma characters of the input unchanged. -/
theorem commaChunks_filter (l : List Char) :
    (commaChunks l).filter notComma = l.filter notComma := by
  have hc : notComma ',' = false := rfl
  induction l using commaChunks.induct with
  | case1 d1 d2 d3 d4 rest ih =>
    simp [commaChunks, List.filter_cons, hc, ih]
  | case2 l hne =>
    rw [commaChunks.eq_def]
    split
    · exact (hne _ _ _ _ _ rfl).elim
    · rfl

/-- Stripping the separators from the grouped digits recovers exactly the
decimal digit string. -/
theorem groupNat_digits (n : Nat) :
    (groupNat n).data.filter notComma = Nat.toDigits 10 n := by
  have hfree : ∀ c ∈ Nat.toDigits 10 n, c ≠ ',' := by
    intro c hc
    exact toDigitsCore_comma_free 10 (n + 1) n [] (by simp) c hc
  show ((commaChunks (Nat.toDigits 10 n).reverse).reverse).filter notComma =
    Nat.toDigits 10 n
  rw [List.filter_reverse, commaChunks_filter, ← List.filter_reverse,
    List.reverse_reverse, List.filter_eq_self.mpr]
  intro a ha
  simpa [notComma] using hfree a ha

/-- C8 amended theorem. -/
theorem money_format_spec :
    money_format none = "€0" ∧
    money_format (some 0) = "€0" ∧
    (∀ v : Int, 0 < v → money_format (some v) = "€" ++ groupNat v.natAbs) ∧
    (∀ v : Int, v < 0 → money_format (some v) = "€" ++ "-" ++ groupNat v.natAbs) ∧
    (∀ n : Nat, (groupNat n).data.filter notComma = Nat.toDigits 10 n) := by
  refine ⟨rfl, by decide, ?_, ?_, groupNat_digits⟩
  · intro v hv
    have : ¬ v < 0 := not_lt.mpr hv.le
    simp [money_format, this]
  · intro v hv
    simp [money_format, hv, String.append_assoc]

/-- C8 witness. -/
theorem money_format_spec_witness :
    (0 < (1234567 : Int)) ∧
    money_format (some 1234567) = "€" ++ groupNat ((1234567 : Int).natAbs) :=
  ⟨by decide, money_format_spec.2.2.1 1234567 (by decide)⟩

/-- The competition stage is the filter by its per-record predicate. -/
theorem compStage_eq_filter (sel : List String) (t : List Record) :
    compStage sel t = t.filter (compPred sel) := by
  by_cases h : activeSel sel
  · unfold compStage
    rw [if_pos h]
    refine List.filter_congr ?_
    intro x hx
    simp [compPred, h]
  · unfold compStage
    rw [if_neg h]
    refine (List.filter_eq_self.mpr ?_).symm
    intro x hx
    simp [compPred, h]

/-- The month stage is the filter by its per-record predicate. -/
theorem monthStage_eq_filter (sel : List String) (t : List Record) :
    monthStage sel t = t.filter (monthPred sel) := by
  by_cases h : activeSel sel
  · unfold monthStage
    rw [if_pos h]
    refine List.filter_congr ?_
    intro x hx
    simp [monthPred, h]
  · unfold monthStage
    rw [if_neg h]
    refine (List.filter_eq_self.mpr ?_).symm
    intro x hx
    simp [monthPred, h]

/-- The year stage is the filter by its per-record predicate. -/
theorem yearStage_eq_filter (sel : List String) (t : List Record) :
    yearStage sel t = t.filter (yearPred sel) := by
  by_cases h : activeSel sel
  · unfold yearStage
    rw [if_pos h]
    refine List.filter_congr ?_
    intro x hx
    simp [yearPred, h]
  · unfold yearStage
    rw [if_neg h]
    refine (List.filter_eq_self.mpr ?_).symm
    intro x hx
    simp [yearPred, h]

/-- Folding filter stages is one filter by the conjunction of the
predicates. -/
theorem foldFilters_eq_filter_all (ps : List (Record → Bool)) (t : List Record) :
    foldFilters ps t = t.filter (fun r => ps.all (fun p => p r)) := by
  induction ps generalizing t with
  | nil => simp [foldFilters, List.filter_true]
  | cons p ps ih =>
    have h1 : foldFilters (p :: ps) t = foldFilters ps (t.filter p) := rfl
    rw [h1, ih, List.filter_filter]
    refine List.filter_congr ?_
    intro x hx
    simp [List.all_cons, Bool.and_comm]

/-- A permuted predicate list has the same conjunction. -/
theorem all_perm {ps ps' : List (Record → Bool)} (h : ps.Perm ps') (r : Record) :
    ps.all (fun p => p r) = ps'.all (fun p => p r) := by
  rw [Bool.eq_iff_iff]
  simp only [List.all_eq_true]
  constructor
  · intro H p hp
    exact H p (h.mem_iff.mpr hp)
  · intro H p hp
    exact H p (h.mem_iff.mp hp)

/-- Section 8B equals the fold of its five predicates in order. -/
theorem applyFilters_eq_foldFilters (c : Criteria) (t : List Record) :
    applyFilters c t = foldFilters (predList c) t := by
  unfold applyFilters foldFilters predList
  rw [compStage_eq_filter, monthStage_eq_filter, yearStage_eq_filter]
  rfl

/-- C9 theorem. -/
theorem filter_order_independent (c : Criteria) (t : List Record)
    (ps : List (Record → Bool)) (h : ps.Perm (predList c)) :
    foldFilters ps t = applyFilters c t := by
  rw [applyFilters_eq_foldFilters, foldFilters_eq_filter_all, foldFilters_eq_filter_all]
  exact List.filter_congr fun x _ => all_perm h x

/-- C9 witness. -/
theorem filter_order_independent_witness :
    ([monthPred runCriteria.selectedMonths, compPred runCriteria.selectedComp,
      yearPred runCriteria.selectedYears, agePred runCriteria.maxAgeFilter,
      minutesPred runCriteria.minMinutes].Perm (predList runCriteria)) ∧
    foldFilters [monthPred runCriteria.selectedMonths, compPred runCriteria.selectedComp,
      yearPred runCriteria.selectedYears, agePred runCriteria.maxAgeFilter,
      minutesPred runCriteria.minMinutes] [recA, recB] =
      applyFilters runCriteria [recA, recB] :=
  ⟨List.Perm.swap _ _ _,
   filter_order_independent runCriteria [recA, recB] _ (List.Perm.swap _ _ _)⟩

/-- C10 theorem. -/
theorem final_sorted_by_date_desc (canonical : List Record) (c : Criteria)
    (h : pipelineFiltered canonical c ≠ []) :
    List.Sorted keyGeP (pipelineSorted canonical c) ∧
    (pipelineSorted canonical c).Perm (pipelineFiltered canonical c) ∧
    finalTable canonical c = (pipelineSorted canonical c).map toFinalRow := by
  have he : (pipelineFiltered canonical c).isEmpty = false := by
    simpa [List.isEmpty_iff] using h
  have hs : pipelineSorted canonical c = sortByDateDesc (pipelineFiltered canonical c) := by
    unfold pipelineSorted
    simp [he]
  refine ⟨?_, ?_, rfl⟩
  · rw [hs]
    exact List.sorted_insertionSort keyGeP _
  · rw [hs]
    exact List.perm_insertionSort keyGeP _

/-- C10 witness. -/
theorem final_sorted_by_date_desc_witness :
    (pipelineFiltered [recA, recB] runCriteria ≠ []) ∧
    (List.Sorted keyGeP (pipelineSorted [recA, recB] runCriteria) ∧
     (pipelineSorted [recA, recB] runCriteria).Perm
       (pipelineFiltered [recA, recB] runCriteria) ∧
     finalTable [recA, recB] runCriteria =
       (pipelineSorted [recA, recB] runCriteria).map toFinalRow) :=
  ⟨by decide, final_sorted_by_date_desc _ _ (by decide)⟩

end Debutants
